import Mathlib

/-!
Shallow embedding of the Bady-cry application (src/App.tsx).

The app is a single React component. We embed its state (the useState
hooks and the mutable refs) as an explicit record `AppState`, and each
event handler / async continuation of `App.tsx` as a function
`AppState → ... → AppState`. JavaScript numbers carrying confidence
scores are modelled as exact rationals; the browser media objects are
modelled by the observable facts the component tracks about them
(stream held, recorder running, timers pending, number of buffered
audio chunks). The remote service (services/geminiService, not part of
the compiled sources here) is opaque: an analysis call's outcome is an
`Except JsError TranslationResult` passed to the continuation that the
code installs for it.
-/

namespace BadyCry

/-- Subject of analysis; the three values used throughout src/App.tsx
(`SUBJECT_CONFIG`, line 9) and declared in types.ts. -/
inductive Subject where
  | Baby
  | Dog
  | Cat
  deriving DecidableEq

/-- `type Status = 'idle' | 'recording' | 'processing' | 'result'`
(src/App.tsx line 6). -/
inductive Status where
  | idle
  | recording
  | processing
  | result
  deriving DecidableEq

/-- `type RecordMode = 'audio' | 'video'` (src/App.tsx line 7). -/
inductive RecordMode where
  | audio
  | video
  deriving DecidableEq

/-- The result shape returned by the analysis service, as constructed and
consumed in src/App.tsx lines 281-286: classification label `cryType`,
numeric `confidence` (modelled as an exact rational), advice text
`suggestion`, optional `behavior` description. -/
structure TranslationResult where
  cryType : String
  confidence : ℚ
  suggestion : String
  behavior : Option String
  deriving DecidableEq

/-- A stored analysis outcome: `TranslationResult` plus identifier,
timestamp and subject, as built in src/App.tsx lines 226-231 and
288-293. -/
structure CryRecord where
  id : String
  timestamp : String
  subject : Subject
  cryType : String
  confidence : ℚ
  suggestion : String
  behavior : Option String
  deriving DecidableEq

/-- Building a `CryRecord` (src/App.tsx lines 226-231 / 288-293):
`id: Date.now().toString()`, `timestamp: new Date().toISOString()`,
the current subject, and the spread of the translation result. `now` is
the millisecond clock reading used for the id; the ISO timestamp string
comes from a separate clock reading and is passed through opaquely. -/
def mkCryRecord (now : ℕ) (isoTimestamp : String) (subject : Subject)
    (r : TranslationResult) : CryRecord :=
  { id := toString now
    timestamp := isoTimestamp
    subject := subject
    cryType := r.cryType
    confidence := r.confidence
    suggestion := r.suggestion
    behavior := r.behavior }

/-- The merge of the two analysis results in video mode, exactly as in
src/App.tsx lines 281-286: label from the audio result, confidence the
average of the two, suggestion the video suggestion then a space then
the audio suggestion (the template literal), behavior from the video
result. -/
def combineResults (audioResult videoResult : TranslationResult) :
    TranslationResult :=
  { cryType := audioResult.cryType
    confidence := (audioResult.confidence + videoResult.confidence) / 2
    suggestion := videoResult.suggestion ++ " " ++ audioResult.suggestion
    behavior := videoResult.behavior }

/-- A JavaScript exception as far as `handleApiError` inspects it
(src/App.tsx line 196): whether it is an `Error` instance, and its
message. -/
structure JsError where
  isError : Bool
  message : String
  deriving DecidableEq

/-- Whether `sub` occurs contiguously in the character list. -/
def charListIncludes (sub : List Char) : List Char → Bool
  | [] => sub.isEmpty
  | c :: t => sub.isPrefixOf (c :: t) || charListIncludes sub t

/-- JavaScript `s.includes(sub)`: `sub` occurs contiguously in `s`
(true for the empty needle, as in JavaScript). -/
def jsIncludes (s sub : String) : Bool :=
  charListIncludes sub.toList s.toList

/-- The invalid-credential test of src/App.tsx line 196:
`err instanceof Error && (err.message.includes('API key not valid') ||
err.message.includes('API_KEY_INVALID'))`. -/
def isApiKeyError (err : JsError) : Bool :=
  err.isError &&
    (jsIncludes err.message "API key not valid" ||
      jsIncludes err.message "API_KEY_INVALID")

/-- Generic failure message, src/App.tsx line 194. -/
def genericFailureMessage : String := "分析失敗，請再試一次。"

/-- Invalid-credential message, src/App.tsx line 197. -/
def invalidKeyMessage : String := "API 金鑰無效或已過期，請檢查並重新輸入。"

/-- Device failure message, src/App.tsx line 307. -/
def deviceErrorMessage : String := "無法啟動麥克風或攝影機，請檢查權限。"

/-- The component state of `App` (src/App.tsx lines 148-163): the eight
useState hooks, the localStorage key `geminiApiKey`, and the observable
state of the mutable refs — whether the media stream is held
(`streamRef`), whether the frame-sampling interval is installed
(`frameIntervalRef`), whether the `MediaRecorder` is recording, whether
the 5-second budget `setTimeout` of video mode is still pending, and
how many audio chunks have been buffered (`audioChunksRef`). -/
structure AppState where
  subject : Subject
  status : Status
  recordMode : RecordMode
  latestResult : Option CryRecord
  history : List CryRecord
  error : Option String
  apiKey : String
  isApiKeyModalOpen : Bool
  storedApiKey : Option String
  streamHeld : Bool
  frameIntervalActive : Bool
  recorderActive : Bool
  budgetTimerPending : Bool
  audioChunks : ℕ
  deriving DecidableEq

/-- The initial hook values of src/App.tsx lines 148-155 (subject Baby,
status idle, mode audio, no result, empty history, no error, empty api
key, modal closed), with the given pre-existing localStorage content and
all refs empty. -/
def initialState (stored : Option String) : AppState :=
  { subject := Subject.Baby
    status := Status.idle
    recordMode := RecordMode.audio
    latestResult := none
    history := []
    error := none
    apiKey := ""
    isApiKeyModalOpen := false
    storedApiKey := stored
    streamHeld := false
    frameIntervalActive := false
    recorderActive := false
    budgetTimerPending := false
    audioChunks := 0 }

/-- The mount effect of src/App.tsx lines 165-172: read
`localStorage.getItem('geminiApiKey')`; if present adopt it as the api
key, otherwise open the credential modal. -/
def initApiKeyEffect (s : AppState) : AppState :=
  match s.storedApiKey with
  | some k => { s with apiKey := k }
  | none => { s with isApiKeyModalOpen := true }

/-- `stopMediaTracks` (src/App.tsx lines 174-183): stop and drop the
stream's tracks, and clear the frame-sampling interval. -/
def stopMediaTracks (s : AppState) : AppState :=
  { s with streamHeld := false, frameIntervalActive := false }

/-- `handleSaveApiKey` (src/App.tsx lines 185-190): adopt the new key,
persist it under `geminiApiKey`, close the modal, clear the error. -/
def handleSaveApiKey (s : AppState) (newApiKey : String) : AppState :=
  { s with apiKey := newApiKey
           storedApiKey := some newApiKey
           isApiKeyModalOpen := false
           error := none }

/-- `handleApiError` (src/App.tsx lines 192-204): if the error message
indicates an invalid credential, remove the stored key, clear the
in-memory key and force the modal open with a specific message;
otherwise keep credentials and show the generic message. Either way the
status returns to idle. -/
def handleApiError (s : AppState) (err : JsError) : AppState :=
  if isApiKeyError err then
    { s with error := some invalidKeyMessage
             status := Status.idle
             storedApiKey := none
             apiKey := ""
             isApiKeyModalOpen := true }
  else
    { s with error := some genericFailureMessage
             status := Status.idle }

/-- The synchronous prefix of `startRecording` (src/App.tsx lines
206-209): clear the error, set status recording, clear the latest
result. -/
def startRecordingBegin (s : AppState) : AppState :=
  { s with error := none, status := Status.recording, latestResult := none }

/-- `startRecording` when `getUserMedia` succeeds (src/App.tsx lines
211-265): the stream is acquired; in audio mode a recorder is created
with an empty chunk buffer and started; in video mode additionally the
500 ms frame-sampling interval is installed and the 5-second budget
timeout is scheduled. -/
def startRecordingSuccess (s : AppState) : AppState :=
  let s1 := startRecordingBegin s
  let s2 := { s1 with streamHeld := true }
  match s2.recordMode with
  | RecordMode.audio =>
      { s2 with recorderActive := true, audioChunks := 0 }
  | RecordMode.video =>
      { s2 with recorderActive := true
                audioChunks := 0
                frameIntervalActive := true
                budgetTimerPending := true }

/-- `startRecording` when `getUserMedia` throws (src/App.tsx lines
305-309): the stream was never assigned; the device error message is
set and the status returns to idle. -/
def startRecordingFailure (s : AppState) : AppState :=
  let s1 := startRecordingBegin s
  { s1 with error := some deviceErrorMessage, status := Status.idle }

/-- An `ondataavailable` delivery (src/App.tsx lines 218-220 / 262-264):
one more chunk is pushed while the recorder runs. -/
def dataAvailable (s : AppState) : AppState :=
  if s.recorderActive then { s with audioChunks := s.audioChunks + 1 } else s

/-- The state of the audio-mode `onstop` handler at the point its
analysis call is in flight (src/App.tsx lines 221-225): the handler has
set status processing and built the blob, and is awaiting
`translateAudio`; `stopMediaTracks` has not yet run. -/
def audioOnStopProcessing (s : AppState) : AppState :=
  { s with status := Status.processing }

/-- The complete audio-mode `onstop` handler (src/App.tsx lines
221-239) given the analysis call's outcome: on success a new record is
built, shown, prepended to the history, and the status becomes result;
on failure `handleApiError` runs. In both cases `stopMediaTracks`
(line 238) runs last. -/
def audioOnStop (s : AppState) (now : ℕ) (isoTimestamp : String)
    (outcome : Except JsError TranslationResult) : AppState :=
  let s1 := audioOnStopProcessing s
  let s2 :=
    match outcome with
    | Except.ok result =>
        let newRecord := mkCryRecord now isoTimestamp s1.subject result
        { s1 with latestResult := some newRecord
                  history := newRecord :: s1.history
                  status := Status.result }
    | Except.error err => handleApiError s1 err
  stopMediaTracks s2

/-- The firing of the 5-second budget timeout in video mode, up to its
first await (src/App.tsx lines 267-270): stop the recorder, release the
stream and clear the frame interval, set status processing. -/
def videoBudgetFired (s : AppState) : AppState :=
  let s1 := { s with recorderActive := false, budgetTimerPending := false }
  let s2 := stopMediaTracks s1
  { s2 with status := Status.processing }

/-- The two kinds of remote analysis call issued by src/App.tsx. -/
inductive ApiCall where
  | video
  | audio
  deriving DecidableEq

/-- The sequence of analysis calls the video-mode timeout body issues
(src/App.tsx lines 272-279): `analyzeVideoFrames` is awaited first; only
if it returns (rather than throws) is `translateAudio` issued. -/
def videoAnalysisCalls (videoOutcome : Except JsError TranslationResult) :
    List ApiCall :=
  match videoOutcome with
  | Except.error _ => [ApiCall.video]
  | Except.ok _ => [ApiCall.video, ApiCall.audio]

/-- The analysis part of the video-mode timeout body (src/App.tsx lines
272-301) given each call's outcome: video first, then audio, then the
combined record is built, shown and prepended; a throw from either call
lands in `handleApiError`. -/
def videoAnalyze (s : AppState) (now : ℕ) (isoTimestamp : String)
    (videoOutcome audioOutcome : Except JsError TranslationResult) :
    AppState :=
  match videoOutcome with
  | Except.error err => handleApiError s err
  | Except.ok videoResult =>
      match audioOutcome with
      | Except.error err => handleApiError s err
      | Except.ok audioResult =>
          let combinedResult := combineResults audioResult videoResult
          let newRecord := mkCryRecord now isoTimestamp s.subject combinedResult
          { s with latestResult := some newRecord
                   history := newRecord :: s.history
                   status := Status.result }

/-- `stopRecording` (src/App.tsx lines 312-318): in audio mode the
recorder is stopped (its `onstop` continuation fires later); in video
mode nothing is cancelled — the comment reads "Video stops on its own
timeout". In both modes the status is set to processing. -/
def stopRecording (s : AppState) : AppState :=
  match s.recordMode with
  | RecordMode.audio =>
      { s with recorderActive := false, status := Status.processing }
  | RecordMode.video => { s with status := Status.processing }

/-- Whether the record/stop button is disabled (src/App.tsx line 361):
`status === 'processing' || !apiKey`. -/
def recordButtonDisabled (s : AppState) : Bool :=
  (s.status == Status.processing) || (s.apiKey == "")

/-- The subject selector's handler (src/App.tsx line 344): set the
subject and clear the latest result. -/
def selectSubject (s : AppState) (sub : Subject) : AppState :=
  { s with subject := sub, latestResult := none }

/-- The mode toggle (src/App.tsx lines 346-347). -/
def setRecordModeAction (s : AppState) (m : RecordMode) : AppState :=
  { s with recordMode := m }

/-- The header button opening the credential modal (src/App.tsx
line 335). -/
def openApiKeyModal (s : AppState) : AppState :=
  { s with isApiKeyModalOpen := true }

/-- The modal's close callback (src/App.tsx line 327). -/
def closeApiKeyModal (s : AppState) : AppState :=
  { s with isApiKeyModalOpen := false }

/-- Every state-changing operation of the session, as embedded above:
the mount effect, the UI handlers, and the asynchronous continuations
with their outcomes. -/
inductive Action where
  | initApp
  | saveApiKey (k : String)
  | openModal
  | closeModal
  | selectSubj (sub : Subject)
  | setMode (m : RecordMode)
  | recordStartOk
  | recordStartFail
  | recordStop
  | dataChunk
  | audioStopped (now : ℕ) (isoTimestamp : String)
      (outcome : Except JsError TranslationResult)
  | budgetFired
  | videoAnalyzed (now : ℕ) (isoTimestamp : String)
      (videoOutcome audioOutcome : Except JsError TranslationResult)

/-- The session step function: dispatch of `Action` to the operations
embedded from src/App.tsx. -/
def step (s : AppState) : Action → AppState
  | Action.initApp => initApiKeyEffect s
  | Action.saveApiKey k => handleSaveApiKey s k
  | Action.openModal => openApiKeyModal s
  | Action.closeModal => closeApiKeyModal s
  | Action.selectSubj sub => selectSubject s sub
  | Action.setMode m => setRecordModeAction s m
  | Action.recordStartOk => startRecordingSuccess s
  | Action.recordStartFail => startRecordingFailure s
  | Action.recordStop => stopRecording s
  | Action.dataChunk => dataAvailable s
  | Action.audioStopped now iso outcome => audioOnStop s now iso outcome
  | Action.budgetFired => videoBudgetFired s
  | Action.videoAnalyzed now iso v a => videoAnalyze s now iso v a

/-- The observable state of a video-mode capture cycle for the timing
model: number of frames pushed so far, whether the frame-sampling
interval is installed, whether the recorder runs, whether the stream is
held, and whether the budget timeout is still pending. -/
structure CaptureSim where
  frames : ℕ
  intervalActive : Bool
  recorderActive : Bool
  streamHeld : Bool
  budgetPending : Bool
  deriving DecidableEq

/-- Capture state right after the video branch of `startRecording` ran
(src/App.tsx lines 241-303): stream held, recorder started, empty frame
list, interval installed, budget timeout scheduled. -/
def simInit : CaptureSim :=
  { frames := 0
    intervalActive := true
    recorderActive := true
    streamHeld := true
    budgetPending := true }

/-- One millisecond of wall-clock time advancing to time `t`: the frame
interval (installed first, line 246, period 500 ms) fires at each
multiple of 500 ms while installed and pushes one frame; the budget
timeout (scheduled second, line 267, delay 5000 ms) fires at 5000 ms,
stopping the recorder, releasing the stream and clearing the interval
(lines 268-270). -/
def simTick (c : CaptureSim) (t : ℕ) : CaptureSim :=
  let c1 :=
    if c.intervalActive && t % 500 == 0 then { c with frames := c.frames + 1 }
    else c
  if c1.budgetPending && t == 5000 then
    { c1 with budgetPending := false
              recorderActive := false
              streamHeld := false
              intervalActive := false }
  else c1

/-- The capture state `t` milliseconds after the video recording
started, with no manual stop ever issued. -/
def simRun : ℕ → CaptureSim
  | 0 => simInit
  | t + 1 => simTick (simRun t) (t + 1)

/-- Before the budget expires, the video capture cycle holds the stream,
keeps recording, keeps the interval installed, and has pushed one frame
per elapsed 500 ms period. -/
lemma simRun_before (t : ℕ) (h : t < 5000) :
    simRun t =
      { frames := t / 500
        intervalActive := true
        recorderActive := true
        streamHeld := true
        budgetPending := true } := by
  induction t with
  | zero => rfl
  | succ t ih =>
    have ht : t < 5000 := Nat.lt_of_succ_lt h
    have hne : t ≠ 4999 := by omega
    show simTick (simRun t) (t + 1) = _
    rw [ih ht]
    by_cases hm : (t + 1) % 500 = 0
    · have hdiv : (t + 1) / 500 = t / 500 + 1 := by omega
      simp [simTick, hm, hne, hdiv]
    · have hdiv : (t + 1) / 500 = t / 500 := by omega
      simp [simTick, hm, hne, hdiv]

/-- From the budget expiry on, the recorder is stopped, the stream is
released, the interval is cleared, and exactly the 10 frames pushed at
500, 1000, …, 5000 ms remain. -/
lemma simRun_after (t : ℕ) (h : 5000 ≤ t) :
    simRun t =
      { frames := 10
        intervalActive := false
        recorderActive := false
        streamHeld := false
        budgetPending := false } := by
  induction t, h using Nat.le_induction with
  | base =>
    show simTick (simRun 4999) 5000 = _
    rw [simRun_before 4999 (by omega)]
    rfl
  | succ t ht ih =>
    show simTick (simRun t) (t + 1) = _
    rw [ih]
    simp [simTick]

/-- A concrete audio-mode analysis result used as test data. -/
def sampleAudioResult : TranslationResult :=
  { cryType := "Hungry"
    confidence := 7 / 10
    suggestion := "請餵食"
    behavior := none }

/-- A concrete video-mode analysis result used as test data. -/
def sampleVideoResult : TranslationResult :=
  { cryType := "Tired"
    confidence := 9 / 10
    suggestion := "觀察動作"
    behavior := some "揉眼睛" }

/-- A concrete error carrying the invalid-credential indicator. -/
def sampleKeyError : JsError :=
  { isError := true
    message := "API key not valid. Please pass a valid API key." }

/-- A concrete error without the invalid-credential indicator. -/
def sampleNetworkError : JsError :=
  { isError := true, message := "fetch failed: network timeout" }

/-- A concrete idle state holding a configured credential. -/
def sampleIdleState : AppState :=
  initApiKeyEffect (initialState (some "k"))

/-- C1: in combined video+audio mode the two analysis calls are issued
sequentially, video first then audio (the audio call is only issued
once the video call returned), and the merged `TranslationResult` takes
its label from the audio result, its confidence as the arithmetic mean
of the two confidences (stated for confidences in [0,1]), its advice as
the video advice followed by the audio advice, and its behavior from
the video result. -/
theorem combined_mode_merge (audioResult videoResult : TranslationResult)
    (e : JsError)
    (ha0 : 0 ≤ audioResult.confidence) (ha1 : audioResult.confidence ≤ 1)
    (hv0 : 0 ≤ videoResult.confidence) (hv1 : videoResult.confidence ≤ 1) :
    videoAnalysisCalls (Except.ok videoResult) = [ApiCall.video, ApiCall.audio]
    ∧ videoAnalysisCalls (Except.error e) = [ApiCall.video]
    ∧ (combineResults audioResult videoResult).cryType = audioResult.cryType
    ∧ (combineResults audioResult videoResult).confidence
        = (audioResult.confidence + videoResult.confidence) / 2
    ∧ (combineResults audioResult videoResult).suggestion
        = videoResult.suggestion ++ " " ++ audioResult.suggestion
    ∧ (combineResults audioResult videoResult).behavior
        = videoResult.behavior :=
  ⟨rfl, rfl, rfl, rfl, rfl, rfl⟩

/-- C1 witness: the spec's scenario, audio confidence 0.70 and video
confidence 0.90, where the merged confidence is 0.80. -/
theorem combined_mode_merge_witness :
    (0 ≤ sampleAudioResult.confidence ∧ sampleAudioResult.confidence ≤ 1
      ∧ 0 ≤ sampleVideoResult.confidence ∧ sampleVideoResult.confidence ≤ 1)
    ∧ (combineResults sampleAudioResult sampleVideoResult).confidence
        = (sampleAudioResult.confidence + sampleVideoResult.confidence) / 2
    ∧ (combineResults sampleAudioResult sampleVideoResult).confidence = 8 / 10 :=
  ⟨⟨by norm_num [sampleAudioResult], by norm_num [sampleAudioResult],
    by norm_num [sampleVideoResult], by norm_num [sampleVideoResult]⟩,
   (combined_mode_merge sampleAudioResult sampleVideoResult sampleNetworkError
      (by norm_num [sampleAudioResult]) (by norm_num [sampleAudioResult])
      (by norm_num [sampleVideoResult]) (by norm_num [sampleVideoResult])).2.2.2.1,
   by norm_num [combineResults, sampleAudioResult, sampleVideoResult]⟩

/-- C2: in both modes, a completed cycle whose analysis succeeded
creates exactly one `CryRecord`, prepends it to the history, and that
record is the head of the newest-first listing immediately afterwards,
with the status set to result. -/
theorem one_record_per_cycle (s : AppState) (now : ℕ) (iso : String)
    (result audioResult videoResult : TranslationResult) :
    (audioOnStop s now iso (Except.ok result)).history
        = mkCryRecord now iso s.subject result :: s.history
    ∧ (audioOnStop s now iso (Except.ok result)).history.head?
        = some (mkCryRecord now iso s.subject result)
    ∧ (audioOnStop s now iso (Except.ok result)).latestResult
        = some (mkCryRecord now iso s.subject result)
    ∧ (audioOnStop s now iso (Except.ok result)).status = Status.result
    ∧ (videoAnalyze s now iso (Except.ok videoResult)
          (Except.ok audioResult)).history
        = mkCryRecord now iso s.subject (combineResults audioResult videoResult)
            :: s.history
    ∧ (videoAnalyze s now iso (Except.ok videoResult)
          (Except.ok audioResult)).history.head?
        = some (mkCryRecord now iso s.subject
            (combineResults audioResult videoResult))
    ∧ (videoAnalyze s now iso (Except.ok videoResult)
          (Except.ok audioResult)).status = Status.result :=
  ⟨rfl, rfl, rfl, rfl, rfl, rfl, rfl⟩

/-- C3: an analysis failure whose message carries an invalid-credential
indicator removes the stored credential, clears the in-memory one,
re-opens the modal and sets the asking-for-re-entry message; a failure
without the indicator leaves the stored and in-memory credential and the
modal untouched and sets only the generic message; both return the
status to idle. -/
theorem api_error_credential_handling (s : AppState) (err : JsError) :
    (isApiKeyError err = true →
      (handleApiError s err).storedApiKey = none
      ∧ (handleApiError s err).apiKey = ""
      ∧ (handleApiError s err).isApiKeyModalOpen = true
      ∧ (handleApiError s err).error = some invalidKeyMessage
      ∧ (handleApiError s err).status = Status.idle)
    ∧ (isApiKeyError err = false →
      (handleApiError s err).storedApiKey = s.storedApiKey
      ∧ (handleApiError s err).apiKey = s.apiKey
      ∧ (handleApiError s err).isApiKeyModalOpen = s.isApiKeyModalOpen
      ∧ (handleApiError s err).error = some genericFailureMessage
      ∧ (handleApiError s err).status = Status.idle) := by
  constructor <;> intro h <;> simp [handleApiError, h]

/-- C3 witness: a concrete invalid-credential error clears the stored
key, a concrete network error leaves it in place. -/
theorem api_error_credential_handling_witness :
    isApiKeyError sampleKeyError = true
    ∧ isApiKeyError sampleNetworkError = false
    ∧ (handleApiError sampleIdleState sampleKeyError).storedApiKey = none
    ∧ (handleApiError sampleIdleState sampleNetworkError).storedApiKey
        = sampleIdleState.storedApiKey :=
  ⟨by decide, by decide,
   ((api_error_credential_handling sampleIdleState sampleKeyError).1
      (by decide)).1,
   ((api_error_credential_handling sampleIdleState sampleNetworkError).2
      (by decide)).1⟩

/-- C10: the identifier of every `CryRecord` is the decimal string of
the millisecond clock value read when it is built, so two records built
within the same millisecond carry identical identifiers regardless of
their other fields. -/
theorem record_id_is_clock_string (now : ℕ) (iso1 iso2 : String)
    (sub1 sub2 : Subject) (r1 r2 : TranslationResult) :
    (mkCryRecord now iso1 sub1 r1).id = Nat.repr now
    ∧ (mkCryRecord now iso1 sub1 r1).id = (mkCryRecord now iso2 sub2 r2).id :=
  ⟨rfl, rfl⟩

/-- The in-flight point of an audio-mode cycle: recording started from
the configured idle state, the user stopped it, and the `onstop`
handler has reached its analysis await. -/
def sampleInflightState : AppState :=
  audioOnStopProcessing (stopRecording (startRecordingSuccess sampleIdleState))

/-- C4 counterexample: a reachable audio-mode processing state in which
the analysis call is in flight and the stream is still held — the
`onstop` handler of src/App.tsx sets status processing (line 222) and
awaits `translateAudio` (line 225) before it reaches `stopMediaTracks`
(line 238), so the device is not yet released there. -/
theorem processing_holds_stream_counterexample :
    sampleInflightState.status = Status.processing
    ∧ sampleInflightState.streamHeld = true :=
  ⟨rfl, rfl⟩

/-- C4 amended: in video mode the device is released when the budget
timer fires, before any analysis call is issued; in audio mode the
stream stays as it was while the analysis call is in flight and is
released only when the `onstop` handler completes, on success and
failure alike (which also clears any frame interval); the
`getUserMedia` failure path leaves the stream flag unchanged (nothing
had been acquired). -/
theorem device_release_amended (s : AppState) (now : ℕ) (iso : String)
    (outcome : Except JsError TranslationResult) :
    (videoBudgetFired s).streamHeld = false
    ∧ (videoBudgetFired s).frameIntervalActive = false
    ∧ (videoBudgetFired s).status = Status.processing
    ∧ (audioOnStopProcessing s).streamHeld = s.streamHeld
    ∧ (audioOnStop s now iso outcome).streamHeld = false
    ∧ (audioOnStop s now iso outcome).frameIntervalActive = false
    ∧ (startRecordingFailure s).streamHeld = s.streamHeld := by
  refine ⟨rfl, rfl, rfl, rfl, ?_, ?_, rfl⟩ <;>
    cases outcome <;> rfl

/-- A concrete result state whose latest-result card is showing. -/
def sampleResultState : AppState :=
  let rec0 := mkCryRecord 1000 "2026-01-01T00:00:00.000Z" Subject.Baby
    sampleAudioResult
  { sampleIdleState with status := Status.result
                         latestResult := some rec0
                         history := [rec0] }

/-- C5 counterexample: a capture-start failure does not leave all other
state unchanged — the latest-result display was cleared when the
recording attempt began (src/App.tsx line 209), so a state that was
showing a result loses it. -/
theorem capture_failure_counterexample :
    sampleResultState.latestResult ≠ none
    ∧ (startRecordingFailure sampleResultState).latestResult = none :=
  ⟨by decide, rfl⟩

/-- C5 amended: if device permission is denied or no device exists when
capture starts, the device error message is shown, the status returns
to idle, no media is retained and no `CryRecord` is produced; the
history, credential, stored credential, modal and media flags are
unchanged, but the latest-result display has been cleared (a side
effect of initiating any recording attempt). -/
theorem capture_failure_amended (s : AppState) :
    (startRecordingFailure s).status = Status.idle
    ∧ (startRecordingFailure s).error = some deviceErrorMessage
    ∧ (startRecordingFailure s).latestResult = none
    ∧ (startRecordingFailure s).history = s.history
    ∧ (startRecordingFailure s).apiKey = s.apiKey
    ∧ (startRecordingFailure s).storedApiKey = s.storedApiKey
    ∧ (startRecordingFailure s).isApiKeyModalOpen = s.isApiKeyModalOpen
    ∧ (startRecordingFailure s).streamHeld = s.streamHeld
    ∧ (startRecordingFailure s).frameIntervalActive = s.frameIntervalActive
    ∧ (startRecordingFailure s).recorderActive = s.recorderActive
    ∧ (startRecordingFailure s).budgetTimerPending = s.budgetTimerPending
    ∧ (startRecordingFailure s).audioChunks = s.audioChunks :=
  ⟨rfl, rfl, rfl, rfl, rfl, rfl, rfl, rfl, rfl, rfl, rfl, rfl⟩

/-- A video-mode recording state reached from the configured idle
state: interval installed and budget timeout pending. -/
def sampleVideoRecordingState : AppState :=
  startRecordingSuccess (setRecordModeAction sampleIdleState RecordMode.video)

/-- C6 counterexample: stopping a video recording early cancels neither
scheduled callback — `stopRecording` (src/App.tsx lines 312-318) leaves
the frame-sampling interval installed and the 5-second budget timeout
pending ("Video stops on its own timeout"), and no teardown cleanup
effect is registered anywhere in the component. -/
theorem stop_early_keeps_timers_counterexample :
    sampleVideoRecordingState.frameIntervalActive = true
    ∧ sampleVideoRecordingState.budgetTimerPending = true
    ∧ (stopRecording sampleVideoRecordingState).frameIntervalActive = true
    ∧ (stopRecording sampleVideoRecordingState).budgetTimerPending = true :=
  ⟨rfl, rfl, rfl, rfl⟩

/-- C6 amended: in video mode an early stop by the user cancels neither
the frame-sampling interval nor the budget timeout; the budget timeout
is never cancelled and, when it fires, it stops the recorder, clears
the frame-sampling interval and releases the stream — so the devices
are held no longer than the 5-second budget rather than indefinitely,
but not because of any cancellation on the early-stop or teardown
paths. -/
theorem video_timers_amended (s : AppState)
    (h : s.recordMode = RecordMode.video) :
    (stopRecording s).frameIntervalActive = s.frameIntervalActive
    ∧ (stopRecording s).budgetTimerPending = s.budgetTimerPending
    ∧ (videoBudgetFired s).frameIntervalActive = false
    ∧ (videoBudgetFired s).budgetTimerPending = false
    ∧ (videoBudgetFired s).recorderActive = false
    ∧ (videoBudgetFired s).streamHeld = false := by
  refine ⟨?_, ?_, rfl, rfl, rfl, rfl⟩ <;> simp [stopRecording, h]

/-- C6 amended witness: the concrete video recording state. -/
theorem video_timers_amended_witness :
    sampleVideoRecordingState.recordMode = RecordMode.video
    ∧ (stopRecording sampleVideoRecordingState).budgetTimerPending
        = sampleVideoRecordingState.budgetTimerPending :=
  ⟨rfl, (video_timers_amended sampleVideoRecordingState rfl).2.1⟩

/-- C7: video capture runs on the fixed 5-second budget — before expiry
the stream is held, the recorder runs, the interval is installed and
one frame has been pushed per elapsed 500 ms period; from expiry on
(with no manual stop ever issued) the recorder and the frame capture
have stopped and the stream is released, with exactly the 10 sampled
frames kept. -/
theorem video_budget_timeline (t : ℕ) :
    (t < 5000 →
      (simRun t).frames = t / 500
      ∧ (simRun t).streamHeld = true
      ∧ (simRun t).recorderActive = true
      ∧ (simRun t).intervalActive = true)
    ∧ (5000 ≤ t →
      (simRun t).streamHeld = false
      ∧ (simRun t).recorderActive = false
      ∧ (simRun t).intervalActive = false
      ∧ (simRun t).frames = 10) := by
  constructor <;> intro h
  · rw [simRun_before t h]
    exact ⟨rfl, rfl, rfl, rfl⟩
  · rw [simRun_after t h]
    exact ⟨rfl, rfl, rfl, rfl⟩

/-- C7 witness: at 1234 ms the capture is live with 2 frames; at
6000 ms everything has stopped and the stream is released. -/
theorem video_budget_timeline_witness :
    (1234 < 5000 ∧ (simRun 1234).frames = 1234 / 500)
    ∧ (5000 ≤ 6000 ∧ (simRun 6000).streamHeld = false) :=
  ⟨⟨by decide, ((video_budget_timeline 1234).1 (by decide)).1⟩,
   ⟨by decide, ((video_budget_timeline 6000).2 (by decide)).1⟩⟩

/-- C8: with no stored credential and an empty in-memory key, the mount
effect opens the credential modal and the record action is blocked;
saving any non-empty key persists it, adopts it, closes the modal, and
the same record action is unblocked. -/
theorem credential_gate (s : AppState) (k : String)
    (hstored : s.storedApiKey = none) (hkey : s.apiKey = "")
    (hstatus : s.status = Status.idle) (hk : k ≠ "") :
    (initApiKeyEffect s).isApiKeyModalOpen = true
    ∧ recordButtonDisabled (initApiKeyEffect s) = true
    ∧ (handleSaveApiKey (initApiKeyEffect s) k).apiKey = k
    ∧ (handleSaveApiKey (initApiKeyEffect s) k).storedApiKey = some k
    ∧ (handleSaveApiKey (initApiKeyEffect s) k).isApiKeyModalOpen = false
    ∧ recordButtonDisabled (handleSaveApiKey (initApiKeyEffect s) k)
        = false := by
  simp [initApiKeyEffect, hstored, handleSaveApiKey, recordButtonDisabled,
    hkey, hstatus, hk]

/-- C8 witness: the fresh state with nothing stored, saving the key
"my-key". -/
theorem credential_gate_witness :
    ((initialState none).storedApiKey = none
      ∧ (initialState none).apiKey = ""
      ∧ (initialState none).status = Status.idle
      ∧ ("my-key" : String) ≠ "")
    ∧ recordButtonDisabled (initApiKeyEffect (initialState none)) = true
    ∧ recordButtonDisabled
        (handleSaveApiKey (initApiKeyEffect (initialState none)) "my-key")
        = false :=
  ⟨⟨rfl, rfl, rfl, by decide⟩,
   (credential_gate (initialState none) "my-key" rfl rfl rfl
      (by decide)).2.1,
   (credential_gate (initialState none) "my-key" rfl rfl rfl
      (by decide)).2.2.2.2.2⟩

/-- C9: the history is strictly append-only and newest first — every
operation of the session either leaves the history unchanged or
prepends exactly one new record to it, so no existing record is ever
mutated, reordered or deleted. -/
theorem history_append_only (s : AppState) (a : Action) :
    (step s a).history = s.history
    ∨ ∃ r, (step s a).history = r :: s.history := by
  cases a with
  | initApp =>
    left
    cases hs : s.storedApiKey <;> simp [step, initApiKeyEffect, hs]
  | audioStopped now iso outcome =>
    cases outcome with
    | ok result => exact Or.inr ⟨_, rfl⟩
    | error err =>
      left
      simp only [step, audioOnStop, audioOnStopProcessing, stopMediaTracks,
        handleApiError]
      split <;> rfl
  | videoAnalyzed now iso videoOutcome audioOutcome =>
    cases videoOutcome with
    | error err =>
      left
      simp only [step, videoAnalyze, handleApiError]
      split <;> rfl
    | ok videoResult =>
      cases audioOutcome with
      | error err =>
        left
        simp only [step, videoAnalyze, handleApiError]
        split <;> rfl
      | ok audioResult => exact Or.inr ⟨_, rfl⟩
  | recordStartOk =>
    left
    simp only [step, startRecordingSuccess, startRecordingBegin]
    cases s.recordMode <;> rfl
  | recordStop =>
    left
    simp only [step, stopRecording]
    cases s.recordMode <;> rfl
  | dataChunk =>
    left
    simp only [step, dataAvailable]
    split <;> rfl
  | _ => exact Or.inl rfl

end BadyCry
